import Mathlib

/-!
Verification development for the xenovaPay payment-relay server.

The definitions below are a shallow embedding of the transaction store
(`MemStorage` in the storage module), the data model (`shared/schema.ts`)
and the route handlers (`server/routes.ts`).  State is passed explicitly:
every handler takes the current store, the wall-clock instants at which it
writes, and the outcome of the gateway HTTP call it performs (a parsed
payload on success, a thrown error message on failure), and returns the
HTTP-level result together with the new store.  Timestamps are `Nat`.
-/

/-- A transaction record, following the `transactions` table of
`shared/schema.ts`: `type` is `DEPOSIT`/`PAYOUT`, `status` one of
`PENDING`/`ACCEPTED`/`COMPLETED`/`FAILED` (kept as strings, as in the
source), nullable columns are `Option`. -/
structure Transaction where
  id : String
  type : String
  status : String
  amount : String
  currency : String
  country : String
  phoneNumber : String
  provider : String
  description : Option String
  providerTransactionId : Option String
  pawapayResponse : Option String
  errorMessage : Option String
  created : Nat
  updated : Nat
  deriving DecidableEq

/-- `InsertTransaction`: the creation payload, i.e. a `Transaction` without
the store-assigned `created`/`updated` timestamps. -/
structure InsertTransaction where
  id : String
  type : String
  status : String
  amount : String
  currency : String
  country : String
  phoneNumber : String
  provider : String
  description : Option String
  providerTransactionId : Option String
  pawapayResponse : Option String
  errorMessage : Option String
  deriving DecidableEq

/-- The in-memory transaction map of `MemStorage`
(`transactions : Map<string, Transaction>`), modelled by its lookup
function. -/
def Store : Type := String → Option Transaction

/-- The empty map (a freshly constructed `MemStorage`). -/
def Store.emptyStore : Store := fun _ => none

/-- `Map.set`: bind key `k` to `v`, leaving every other key unchanged. -/
def Store.set (m : Store) (k : String) (v : Transaction) : Store :=
  fun x => if x = k then some v else m x

/-- `MemStorage.getTransaction`: `this.transactions.get(id)`. -/
def getTransaction (store : Store) (id : String) : Option Transaction :=
  store id

/-- JS `a || b` for a possibly-absent string against a string default: an
absent value and the empty string are falsy and fall through to `b`. -/
def jsOrStr (a : Option String) (b : String) : String :=
  match a with
  | some s => if s = "" then b else s
  | none => b

/-- JS `a || null` on an optional string: absent or empty becomes null. -/
def jsOrNull (a : Option String) : Option String :=
  match a with
  | some s => if s = "" then none else some s
  | none => none

/-- JS `a || b` where both operands are possibly-absent strings. -/
def jsOrOpt (a b : Option String) : Option String :=
  match a with
  | some s => if s = "" then b else some s
  | none => b

/-- `MemStorage.createTransaction`: spreads the insert payload, normalises
`description` with `insertTransaction.description || null`, stamps
`created`/`updated` with `now`, and `Map.set`s the record under its id
(unconditionally — a colliding id is overwritten). -/
def createTransaction (store : Store) (now : Nat) (t : InsertTransaction) :
    Transaction × Store :=
  let txn : Transaction :=
    { id := t.id
      type := t.type
      status := t.status
      amount := t.amount
      currency := t.currency
      country := t.country
      phoneNumber := t.phoneNumber
      provider := t.provider
      description := jsOrNull t.description
      providerTransactionId := t.providerTransactionId
      pawapayResponse := t.pawapayResponse
      errorMessage := t.errorMessage
      created := now
      updated := now }
  (txn, store.set txn.id txn)

/-- `Partial<Transaction>`: each field is `some v` when the corresponding
key is present in the JS partial-update object (with `v` its value) and
`none` when the key is absent.  The `updated` key may be present in the JS
partial but is always overwritten by the store (see `applyUpdates`), so it
is carried here only for faithfulness. -/
structure TransactionUpdates where
  id : Option String := none
  type : Option String := none
  status : Option String := none
  amount : Option String := none
  currency : Option String := none
  country : Option String := none
  phoneNumber : Option String := none
  provider : Option String := none
  description : Option (Option String) := none
  providerTransactionId : Option (Option String) := none
  pawapayResponse : Option (Option String) := none
  errorMessage : Option (Option String) := none
  created : Option Nat := none
  updated : Option Nat := none
  deriving DecidableEq

/-- The merge `{...existing, ...updates, updated: new Date()}` of
`MemStorage.updateTransaction`: a field present in the partial wins, an
absent field keeps the existing value, and `updated` is forced to `now`
regardless of the partial. -/
def applyUpdates (t : Transaction) (u : TransactionUpdates) (now : Nat) :
    Transaction :=
  { id := u.id.getD t.id
    type := u.type.getD t.type
    status := u.status.getD t.status
    amount := u.amount.getD t.amount
    currency := u.currency.getD t.currency
    country := u.country.getD t.country
    phoneNumber := u.phoneNumber.getD t.phoneNumber
    provider := u.provider.getD t.provider
    description := u.description.getD t.description
    providerTransactionId := u.providerTransactionId.getD t.providerTransactionId
    pawapayResponse := u.pawapayResponse.getD t.pawapayResponse
    errorMessage := u.errorMessage.getD t.errorMessage
    created := u.created.getD t.created
    updated := now }

/-- `MemStorage.updateTransaction`: looks the id up, returns `undefined`
(here `none`) without touching the map when it is absent, otherwise merges
and re-`set`s the record under the same key. -/
def updateTransaction (store : Store) (now : Nat) (id : String)
    (updates : TransactionUpdates) : Option Transaction × Store :=
  match store id with
  | none => (none, store)
  | some existing =>
      let updatedTxn := applyUpdates existing updates now
      (some updatedTxn, store.set id updatedTxn)

/-- The fields of a parsed gateway JSON payload that the route handlers
project out, together with `raw`, its `JSON.stringify` serialisation as
stored into `pawapayResponse`. -/
structure GatewayResponse where
  status : String
  country : Option String
  providerTransactionId : Option String
  raw : String
  deriving DecidableEq

/-- Outcome of a `callPawaPayAPI` call: `.ok` with the parsed payload, or
`.error` with the message of the thrown error (non-2xx response or
network/parse failure). -/
def GatewayResult : Type := Except String GatewayResponse

/-- Result of the status-polling routes `GET /api/deposits/:id/status` and
`GET /api/payouts/:id/status`: 404 for an unknown id, a 200 passthrough of
the gateway payload, or the 200 stale-read fallback body
`{transactionId, status, error}` when the gateway call throws. -/
inductive StatusCheckResult where
  | notFound
  | okGateway (resp : GatewayResponse)
  | okFallback (transactionId : String) (status : String) (error : String)
  deriving DecidableEq

/-- HTTP status code of a status-check response. -/
def StatusCheckResult.httpStatus : StatusCheckResult → Nat
  | .notFound => 404
  | .okGateway _ => 200
  | .okFallback _ _ _ => 200

/-- `GET /api/deposits/:id/status`: look the transaction up (404 when
absent); query the gateway; on success merge status, raw payload and
`providerTransactionId` only when the reported status differs from the
stored one, and pass the payload through; on a thrown gateway error answer
200 with the stored status and write nothing. -/
def checkDepositStatus (store : Store) (now : Nat) (id : String)
    (gw : Except String GatewayResponse) : StatusCheckResult × Store :=
  match getTransaction store id with
  | none => (.notFound, store)
  | some transaction =>
      match gw with
      | .ok pawaPayResponse =>
          if pawaPayResponse.status ≠ transaction.status then
            let r := updateTransaction store now id
              { status := some pawaPayResponse.status
                pawapayResponse := some (some pawaPayResponse.raw)
                providerTransactionId := some pawaPayResponse.providerTransactionId }
            (.okGateway pawaPayResponse, r.2)
          else
            (.okGateway pawaPayResponse, store)
      | .error apiError =>
          (.okFallback id transaction.status apiError, store)

/-- `GET /api/payouts/:id/status`: identical to the deposit variant except
for the gateway endpoint it queries. -/
def checkPayoutStatus (store : Store) (now : Nat) (id : String)
    (gw : Except String GatewayResponse) : StatusCheckResult × Store :=
  match getTransaction store id with
  | none => (.notFound, store)
  | some transaction =>
      match gw with
      | .ok pawaPayResponse =>
          if pawaPayResponse.status ≠ transaction.status then
            let r := updateTransaction store now id
              { status := some pawaPayResponse.status
                pawapayResponse := some (some pawaPayResponse.raw)
                providerTransactionId := some pawaPayResponse.providerTransactionId }
            (.okGateway pawaPayResponse, r.2)
          else
            (.okGateway pawaPayResponse, store)
      | .error apiError =>
          (.okFallback id transaction.status apiError, store)

/-- Body of `depositRequestSchema` (`shared/schema.ts`). -/
structure DepositRequest where
  phoneNumber : String
  provider : String
  amount : String
  currency : String
  description : Option String
  deriving DecidableEq

/-- Body of `payoutRequestSchema` (`shared/schema.ts`): same shape, but the
optional description carries no length/charset constraint. -/
structure PayoutRequest where
  phoneNumber : String
  provider : String
  amount : String
  currency : String
  description : Option String
  deriving DecidableEq

/-- One character of the description charset `[a-zA-Z0-9 ]`. -/
def descriptionCharOk (c : Char) : Bool :=
  c.isAlphanum || c = ' '

/-- The deposit description rule: length in [4, 22] over the charset
(checked character by character on the string's character list). -/
def descriptionValid (d : String) : Bool :=
  4 ≤ d.length && d.length ≤ 22 && d.data.all descriptionCharOk

/-- `depositRequestSchema.parse` succeeds: phone number at least 10
characters, description (when present) valid. -/
def depositRequestValid (r : DepositRequest) : Bool :=
  10 ≤ r.phoneNumber.length &&
    (match r.description with
     | none => true
     | some d => descriptionValid d)

/-- `payoutRequestSchema.parse` succeeds: only the phone-number length is
constrained. -/
def payoutRequestValid (r : PayoutRequest) : Bool :=
  10 ≤ r.phoneNumber.length

/-- Result of the initiation routes `POST /api/deposits` and
`POST /api/payouts`: 400 on validation failure (before any record exists),
200 `{transactionId, ...gatewayFields}` on gateway success, or 500
`{transactionId, error}` on a thrown gateway error. -/
inductive InitResult where
  | badRequest
  | okInit (transactionId : String) (resp : GatewayResponse)
  | errInit (transactionId : String) (error : String)
  deriving DecidableEq

/-- HTTP status code of an initiation response. -/
def InitResult.httpStatus : InitResult → Nat
  | .badRequest => 400
  | .okInit _ _ => 200
  | .errInit _ _ => 500

/-- The record `POST /api/deposits` creates before calling the gateway:
PENDING, empty country, null response/provider-reference/error fields. -/
def depositInsert (depositId : String) (r : DepositRequest) :
    InsertTransaction :=
  { id := depositId
    type := "DEPOSIT"
    status := "PENDING"
    amount := r.amount
    currency := r.currency
    country := ""
    phoneNumber := r.phoneNumber
    provider := r.provider
    description := r.description
    pawapayResponse := none
    providerTransactionId := none
    errorMessage := none }

/-- The record `POST /api/payouts` creates before calling the gateway. -/
def payoutInsert (payoutId : String) (r : PayoutRequest) :
    InsertTransaction :=
  { id := payoutId
    type := "PAYOUT"
    status := "PENDING"
    amount := r.amount
    currency := r.currency
    country := ""
    phoneNumber := r.phoneNumber
    provider := r.provider
    description := r.description
    pawapayResponse := none
    providerTransactionId := none
    errorMessage := none }

/-- `POST /api/deposits`: validate (400 before any state on failure),
create the PENDING record at `now1` under the fresh `depositId`, call the
gateway; on success merge the reported status, raw payload and
`country || ''` at `now2` and answer 200; on a thrown gateway error merge
`status = FAILED` and the error message at `now2` and answer 500 with the
same `transactionId`. -/
def initiateDeposit (store : Store) (now1 now2 : Nat) (depositId : String)
    (r : DepositRequest) (gw : Except String GatewayResponse) :
    InitResult × Store :=
  if depositRequestValid r then
    let c := createTransaction store now1 (depositInsert depositId r)
    match gw with
    | .ok pawaPayResponse =>
        let u := updateTransaction c.2 now2 depositId
          { status := some pawaPayResponse.status
            pawapayResponse := some (some pawaPayResponse.raw)
            country := some (jsOrStr pawaPayResponse.country "") }
        (.okInit depositId pawaPayResponse, u.2)
    | .error apiError =>
        let u := updateTransaction c.2 now2 depositId
          { status := some "FAILED"
            errorMessage := some (some apiError) }
        (.errInit depositId apiError, u.2)
  else (.badRequest, store)

/-- `POST /api/payouts`: same orchestration as the deposit route. -/
def initiatePayout (store : Store) (now1 now2 : Nat) (payoutId : String)
    (r : PayoutRequest) (gw : Except String GatewayResponse) :
    InitResult × Store :=
  if payoutRequestValid r then
    let c := createTransaction store now1 (payoutInsert payoutId r)
    match gw with
    | .ok pawaPayResponse =>
        let u := updateTransaction c.2 now2 payoutId
          { status := some pawaPayResponse.status
            pawapayResponse := some (some pawaPayResponse.raw)
            country := some (jsOrStr pawaPayResponse.country "") }
        (.okInit payoutId pawaPayResponse, u.2)
    | .error apiError =>
        let u := updateTransaction c.2 now2 payoutId
          { status := some "FAILED"
            errorMessage := some (some apiError) }
        (.errInit payoutId apiError, u.2)
  else (.badRequest, store)

/-- Result of `GET /payment-return`: 400 for a falsy/non-string
`depositId`, 404 for an unknown transaction, otherwise a redirect to
`/receipt?id=...` or `/payment-failed?id=...`. -/
inductive ReturnResult where
  | missingDepositId
  | notFound
  | redirectReceipt (id : String)
  | redirectFailed (id : String)
  deriving DecidableEq

/-- `JSON.stringify` of the synthetic payload the return handler stores
when the post-redirect gateway status query throws:
`{note: 'Status check failed in sandbox, assumed completed', originalError}`. -/
def sandboxNote (originalError : String) : String :=
  "\x7b\"note\":\"Status check failed in sandbox, assumed completed\",\"originalError\":\"" ++
    originalError ++ "\"\x7d"

/-- `GET /payment-return`: reject a falsy `depositId` (400), 404 when the
transaction is unknown; otherwise query the gateway once more.  On success
merge status, raw payload, `providerTransactionId` and
`country || transaction.country`, then redirect to the receipt page iff the
reported status is COMPLETED, else to the failure page.  On a thrown
gateway error merge `status = COMPLETED` with the synthetic sandbox note
and always redirect to the receipt page. -/
def handlePaymentReturn (store : Store) (now : Nat)
    (depositId : Option String) (gw : Except String GatewayResponse) :
    ReturnResult × Store :=
  match depositId with
  | none => (.missingDepositId, store)
  | some did =>
      if did = "" then (.missingDepositId, store)
      else
        match getTransaction store did with
        | none => (.notFound, store)
        | some transaction =>
            match gw with
            | .ok statusResponse =>
                let u := updateTransaction store now did
                  { status := some statusResponse.status
                    pawapayResponse := some (some statusResponse.raw)
                    providerTransactionId := some statusResponse.providerTransactionId
                    country := some (jsOrStr statusResponse.country transaction.country) }
                if statusResponse.status = "COMPLETED" then
                  (.redirectReceipt did, u.2)
                else
                  (.redirectFailed did, u.2)
            | .error apiError =>
                let u := updateTransaction store now did
                  { status := some "COMPLETED"
                    pawapayResponse := some (some (sandboxNote apiError)) }
                (.redirectReceipt did, u.2)

/-- A webhook callback body as read by `POST /api/callback`: the two
possible transaction-identifier keys, the fields the handler projects out,
and `raw`, the `JSON.stringify` of the whole payload. -/
structure CallbackData where
  depositId : Option String
  payoutId : Option String
  status : String
  providerTransactionId : Option String
  country : Option String
  raw : String
  deriving DecidableEq

/-- Result of `POST /api/callback`: 400 when no transaction identifier is
present in the payload, else 200 `{success: true}`. -/
inductive CallbackResult where
  | noTransactionId
  | success
  deriving DecidableEq

/-- HTTP status code of a callback response. -/
def CallbackResult.httpStatus : CallbackResult → Nat
  | .noTransactionId => 400
  | .success => 200

/-- `POST /api/callback`: extract
`callbackData.depositId || callbackData.payoutId`, reject a falsy result
(400); otherwise merge status, raw payload, `providerTransactionId` and
`country || ''` into the record under that id (the store silently does
nothing for an unknown id) and answer `{success: true}`. -/
def handleCallback (store : Store) (now : Nat) (cb : CallbackData) :
    CallbackResult × Store :=
  match jsOrOpt cb.depositId cb.payoutId with
  | none => (.noTransactionId, store)
  | some transactionId =>
      if transactionId = "" then (.noTransactionId, store)
      else
        let u := updateTransaction store now transactionId
          { status := some cb.status
            pawapayResponse := some (some cb.raw)
            providerTransactionId := some cb.providerTransactionId
            country := some (jsOrStr cb.country "") }
        (.success, u.2)

/-- Fixture: a freshly created PENDING deposit record. -/
def txnA : Transaction :=
  { id := "a"
    type := "DEPOSIT"
    status := "PENDING"
    amount := "1000"
    currency := "RWF"
    country := ""
    phoneNumber := "+250783456789"
    provider := "MTN_MOMO_RWA"
    description := none
    providerTransactionId := none
    pawapayResponse := none
    errorMessage := none
    created := 0
    updated := 0 }

/-- Fixture: a second record under another id, used for frame checks. -/
def txnB : Transaction :=
  { id := "b"
    type := "PAYOUT"
    status := "ACCEPTED"
    amount := "500"
    currency := "UGX"
    country := "UGA"
    phoneNumber := "+256700000000"
    provider := "MTN_MOMO_UGA"
    description := some "other txn"
    providerTransactionId := some "prov-b"
    pawapayResponse := some "\x7b\x7d"
    errorMessage := none
    created := 0
    updated := 0 }

/-- Fixture: a store holding `txnA` under "a" and `txnB` under "b". -/
def storeAB : Store :=
  (Store.emptyStore.set "a" txnA).set "b" txnB

/-- `Map.set` makes the written key map to the written record. -/
theorem Store.set_self (m : Store) (k : String) (v : Transaction) :
    Store.set m k v k = some v := by
  simp [Store.set]

/-- `Map.set` leaves every other key unchanged. -/
theorem Store.set_ne (m : Store) (k : String) (v : Transaction) (x : String)
    (hx : x ≠ k) : Store.set m k v x = m x := by
  simp [Store.set, hx]

/-- C1: for a transaction id present in the store, a thrown gateway error
during the status-check operation (deposit and payout variants alike)
produces a 200 response carrying that id and the stored local status, and
returns the store unchanged — no write is performed. -/
theorem c1_stale_read_fallback (store : Store) (now : Nat) (id : String)
    (t : Transaction) (e : String) (h : getTransaction store id = some t) :
    checkDepositStatus store now id (.error e) =
      (.okFallback id t.status e, store) ∧
    checkPayoutStatus store now id (.error e) =
      (.okFallback id t.status e, store) ∧
    (StatusCheckResult.okFallback id t.status e).httpStatus = 200 := by
  simp [checkDepositStatus, checkPayoutStatus, h, StatusCheckResult.httpStatus]

/-- Witness for C1: concrete store, id and gateway error. -/
theorem c1_stale_read_fallback_witness :
    checkDepositStatus storeAB 5 "a" (.error "network down") =
      (.okFallback "a" txnA.status "network down", storeAB) ∧
    checkPayoutStatus storeAB 5 "a" (.error "network down") =
      (.okFallback "a" txnA.status "network down", storeAB) ∧
    (StatusCheckResult.okFallback "a" txnA.status "network down").httpStatus = 200 :=
  c1_stale_read_fallback storeAB 5 "a" txnA "network down" (by decide)

/-- C2: for a transaction id present in the store, a thrown gateway error
in the return-URL handler merges `status = COMPLETED` and the synthetic
sandbox note into the record's response field and redirects to the receipt
page — never to the failure page. -/
theorem c2_return_url_fallback (store : Store) (now : Nat) (did : String)
    (t : Transaction) (e : String) (hne : did ≠ "")
    (h : getTransaction store did = some t) :
    handlePaymentReturn store now (some did) (.error e) =
      (.redirectReceipt did,
        Store.set store did
          { t with
            status := "COMPLETED"
            pawapayResponse := some (sandboxNote e)
            updated := now }) := by
  have h2 : store did = some t := h
  simp [handlePaymentReturn, h, hne, updateTransaction, applyUpdates, h2]

/-- Witness for C2: concrete store, id and gateway error. -/
theorem c2_return_url_fallback_witness :
    handlePaymentReturn storeAB 7 (some "a") (.error "timeout") =
      (.redirectReceipt "a",
        Store.set storeAB "a"
          { txnA with
            status := "COMPLETED"
            pawapayResponse := some (sandboxNote "timeout")
            updated := 7 }) :=
  c2_return_url_fallback storeAB 7 "a" txnA "timeout" (by decide) (by decide)

/-- Fixture: a COMPLETED deposit callback payload for id "a". -/
def cbCompleted : CallbackData :=
  { depositId := some "a"
    payoutId := none
    status := "COMPLETED"
    providerTransactionId := some "prov-123"
    country := some "RWA"
    raw := "\x7b\"depositId\":\"a\",\"status\":\"COMPLETED\"\x7d" }

/-- C3: a webhook callback whose extracted transaction identifier
(`depositId || payoutId`) is a stored id X, carrying status COMPLETED,
updates X's record to status COMPLETED — merging the raw payload,
`providerTransactionId` and `country` — and leaves every id other than X
unchanged. -/
theorem c3_webhook_reconciliation (store : Store) (now : Nat)
    (cb : CallbackData) (x : String) (t : Transaction)
    (hx : jsOrOpt cb.depositId cb.payoutId = some x) (hxe : x ≠ "")
    (hst : cb.status = "COMPLETED")
    (h : getTransaction store x = some t) :
    handleCallback store now cb =
      (.success,
        Store.set store x
          { t with
            status := "COMPLETED"
            pawapayResponse := some cb.raw
            providerTransactionId := cb.providerTransactionId
            country := jsOrStr cb.country ""
            updated := now }) ∧
    (∀ y, y ≠ x → (handleCallback store now cb).2 y = store y) := by
  have h2 : store x = some t := h
  constructor
  · simp [handleCallback, hx, hxe, hst, updateTransaction, applyUpdates, h2]
  · intro y hy
    simp [handleCallback, hx, hxe, updateTransaction, applyUpdates, h2,
      Store.set, hy]

/-- Witness for C3: concrete two-record store and COMPLETED payload. -/
theorem c3_webhook_reconciliation_witness :
    handleCallback storeAB 9 cbCompleted =
      (.success,
        Store.set storeAB "a"
          { txnA with
            status := "COMPLETED"
            pawapayResponse := some cbCompleted.raw
            providerTransactionId := cbCompleted.providerTransactionId
            country := jsOrStr cbCompleted.country ""
            updated := 9 }) ∧
    (∀ y, y ≠ "a" → (handleCallback storeAB 9 cbCompleted).2 y = storeAB y) :=
  c3_webhook_reconciliation storeAB 9 cbCompleted "a" txnA (by decide)
    (by decide) (by decide) (by decide)

/-- C10: a webhook callback whose extracted transaction identifier is
absent from the store answers 200 `{success: true}`, exactly as for a known
id, and returns the store unchanged: the not-found outcome of the update is
silently discarded, not surfaced as a 404. -/
theorem c10_webhook_unknown_id (store : Store) (now : Nat)
    (cb : CallbackData) (x : String)
    (hx : jsOrOpt cb.depositId cb.payoutId = some x) (hxe : x ≠ "")
    (h : getTransaction store x = none) :
    handleCallback store now cb = (.success, store) ∧
    CallbackResult.success.httpStatus = 200 := by
  have h2 : store x = none := h
  simp [handleCallback, hx, hxe, updateTransaction, h2,
    CallbackResult.httpStatus]

/-- Fixture: a callback payload naming an id that is not in `storeAB`. -/
def cbUnknown : CallbackData :=
  { depositId := none
    payoutId := some "zzz"
    status := "COMPLETED"
    providerTransactionId := none
    country := none
    raw := "\x7b\"payoutId\":\"zzz\",\"status\":\"COMPLETED\"\x7d" }

/-- Witness for C10: concrete store and unknown-id payload. -/
theorem c10_webhook_unknown_id_witness :
    handleCallback storeAB 9 cbUnknown = (.success, storeAB) ∧
    CallbackResult.success.httpStatus = 200 :=
  c10_webhook_unknown_id storeAB 9 cbUnknown "zzz" (by decide) (by decide)
    (by decide)

/-- C4: when initiation has created the record and the gateway call then
throws, the stored record becomes FAILED with the failure detail as its
non-null `errorMessage`, and the response is a 500 carrying the same
`transactionId` — for deposits and payouts alike. -/
theorem c4_gateway_failure_marks_failed (store : Store) (now1 now2 : Nat)
    (idD idP : String) (r : DepositRequest) (rp : PayoutRequest) (e : String)
    (hr : depositRequestValid r = true) (hrp : payoutRequestValid rp = true) :
    (initiateDeposit store now1 now2 idD r (.error e)).1 = .errInit idD e ∧
    getTransaction (initiateDeposit store now1 now2 idD r (.error e)).2 idD =
      some
        { id := idD
          type := "DEPOSIT"
          status := "FAILED"
          amount := r.amount
          currency := r.currency
          country := ""
          phoneNumber := r.phoneNumber
          provider := r.provider
          description := jsOrNull r.description
          providerTransactionId := none
          pawapayResponse := none
          errorMessage := some e
          created := now1
          updated := now2 } ∧
    (initiatePayout store now1 now2 idP rp (.error e)).1 = .errInit idP e ∧
    getTransaction (initiatePayout store now1 now2 idP rp (.error e)).2 idP =
      some
        { id := idP
          type := "PAYOUT"
          status := "FAILED"
          amount := rp.amount
          currency := rp.currency
          country := ""
          phoneNumber := rp.phoneNumber
          provider := rp.provider
          description := jsOrNull rp.description
          providerTransactionId := none
          pawapayResponse := none
          errorMessage := some e
          created := now1
          updated := now2 } ∧
    (InitResult.errInit idD e).httpStatus = 500 := by
  simp [initiateDeposit, initiatePayout, hr, hrp, createTransaction,
    depositInsert, payoutInsert, updateTransaction, applyUpdates,
    getTransaction, Store.set, InitResult.httpStatus]

/-- Fixture: a valid deposit request. -/
def reqD : DepositRequest :=
  { phoneNumber := "+250783456789"
    provider := "MTN_MOMO_RWA"
    amount := "1000"
    currency := "RWF"
    description := some "Test payment" }

/-- Fixture: a valid payout request. -/
def reqP : PayoutRequest :=
  { phoneNumber := "+256700000000"
    provider := "MTN_MOMO_UGA"
    amount := "500"
    currency := "UGX"
    description := none }

/-- Witness for C4: concrete requests and gateway error. -/
theorem c4_gateway_failure_marks_failed_witness :
    (initiateDeposit storeAB 3 4 "d1" reqD (.error "boom")).1 =
      .errInit "d1" "boom" ∧
    getTransaction (initiateDeposit storeAB 3 4 "d1" reqD (.error "boom")).2
        "d1" =
      some
        { id := "d1"
          type := "DEPOSIT"
          status := "FAILED"
          amount := reqD.amount
          currency := reqD.currency
          country := ""
          phoneNumber := reqD.phoneNumber
          provider := reqD.provider
          description := jsOrNull reqD.description
          providerTransactionId := none
          pawapayResponse := none
          errorMessage := some "boom"
          created := 3
          updated := 4 } ∧
    (initiatePayout storeAB 3 4 "p1" reqP (.error "boom")).1 =
      .errInit "p1" "boom" ∧
    getTransaction (initiatePayout storeAB 3 4 "p1" reqP (.error "boom")).2
        "p1" =
      some
        { id := "p1"
          type := "PAYOUT"
          status := "FAILED"
          amount := reqP.amount
          currency := reqP.currency
          country := ""
          phoneNumber := reqP.phoneNumber
          provider := reqP.provider
          description := jsOrNull reqP.description
          providerTransactionId := none
          pawapayResponse := none
          errorMessage := some "boom"
          created := 3
          updated := 4 } ∧
    (InitResult.errInit "d1" "boom").httpStatus = 500 :=
  c4_gateway_failure_marks_failed storeAB 3 4 "d1" "p1" reqD reqP "boom"
    (by decide) (by decide)

/-- Characterisation of one merged field: a key absent from the partial
keeps the existing value, a present key takes the provided value. -/
theorem getD_merge_spec {α : Type} (o : Option α) (d : α) :
    (o = none → o.getD d = d) ∧ ∀ v, o = some v → o.getD d = v := by
  cases o <;> simp

/-- C5: updating a stored transaction shallow-merges exactly the provided
fields: every key absent from the partial keeps its previous value, every
present key takes the provided value (`updated`, which the store stamps
with the call time regardless of the partial, being the one exception),
`updated` becomes the call time, and no other record is touched. -/
theorem c5_partial_update_merge (store : Store) (now : Nat) (id : String)
    (t : Transaction) (u : TransactionUpdates)
    (h : getTransaction store id = some t) :
    ∃ t2,
      updateTransaction store now id u = (some t2, Store.set store id t2) ∧
      (u.id = none → t2.id = t.id) ∧
      (∀ v, u.id = some v → t2.id = v) ∧
      (u.type = none → t2.type = t.type) ∧
      (∀ v, u.type = some v → t2.type = v) ∧
      (u.status = none → t2.status = t.status) ∧
      (∀ v, u.status = some v → t2.status = v) ∧
      (u.amount = none → t2.amount = t.amount) ∧
      (∀ v, u.amount = some v → t2.amount = v) ∧
      (u.currency = none → t2.currency = t.currency) ∧
      (∀ v, u.currency = some v → t2.currency = v) ∧
      (u.country = none → t2.country = t.country) ∧
      (∀ v, u.country = some v → t2.country = v) ∧
      (u.phoneNumber = none → t2.phoneNumber = t.phoneNumber) ∧
      (∀ v, u.phoneNumber = some v → t2.phoneNumber = v) ∧
      (u.provider = none → t2.provider = t.provider) ∧
      (∀ v, u.provider = some v → t2.provider = v) ∧
      (u.description = none → t2.description = t.description) ∧
      (∀ v, u.description = some v → t2.description = v) ∧
      (u.providerTransactionId = none →
        t2.providerTransactionId = t.providerTransactionId) ∧
      (∀ v, u.providerTransactionId = some v →
        t2.providerTransactionId = v) ∧
      (u.pawapayResponse = none → t2.pawapayResponse = t.pawapayResponse) ∧
      (∀ v, u.pawapayResponse = some v → t2.pawapayResponse = v) ∧
      (u.errorMessage = none → t2.errorMessage = t.errorMessage) ∧
      (∀ v, u.errorMessage = some v → t2.errorMessage = v) ∧
      (u.created = none → t2.created = t.created) ∧
      (∀ v, u.created = some v → t2.created = v) ∧
      t2.updated = now ∧
      (∀ y, y ≠ id → Store.set store id t2 y = store y) := by
  have h2 : store id = some t := h
  refine ⟨applyUpdates t u now, by simp [updateTransaction, h2],
    (getD_merge_spec u.id t.id).1,
    (getD_merge_spec u.id t.id).2,
    (getD_merge_spec u.type t.type).1,
    (getD_merge_spec u.type t.type).2,
    (getD_merge_spec u.status t.status).1,
    (getD_merge_spec u.status t.status).2,
    (getD_merge_spec u.amount t.amount).1,
    (getD_merge_spec u.amount t.amount).2,
    (getD_merge_spec u.currency t.currency).1,
    (getD_merge_spec u.currency t.currency).2,
    (getD_merge_spec u.country t.country).1,
    (getD_merge_spec u.country t.country).2,
    (getD_merge_spec u.phoneNumber t.phoneNumber).1,
    (getD_merge_spec u.phoneNumber t.phoneNumber).2,
    (getD_merge_spec u.provider t.provider).1,
    (getD_merge_spec u.provider t.provider).2,
    (getD_merge_spec u.description t.description).1,
    (getD_merge_spec u.description t.description).2,
    (getD_merge_spec u.providerTransactionId t.providerTransactionId).1,
    (getD_merge_spec u.providerTransactionId t.providerTransactionId).2,
    (getD_merge_spec u.pawapayResponse t.pawapayResponse).1,
    (getD_merge_spec u.pawapayResponse t.pawapayResponse).2,
    (getD_merge_spec u.errorMessage t.errorMessage).1,
    (getD_merge_spec u.errorMessage t.errorMessage).2,
    (getD_merge_spec u.created t.created).1,
    (getD_merge_spec u.created t.created).2,
    rfl,
    fun y hy => by simp [Store.set, hy]⟩

/-- Fixture: a partial update touching only status and response. -/
def updSample : TransactionUpdates :=
  { status := some "COMPLETED"
    pawapayResponse := some (some "\x7b\x7d") }

/-- Witness for C5: the sample partial on the concrete store sets the
provided fields, keeps an omitted field, stamps `updated`, and leaves the
other record alone. -/
theorem c5_partial_update_merge_witness :
    ∃ t2,
      updateTransaction storeAB 11 "a" updSample =
        (some t2, Store.set storeAB "a" t2) ∧
      t2.status = "COMPLETED" ∧
      t2.amount = txnA.amount ∧
      t2.updated = 11 ∧
      Store.set storeAB "a" t2 "b" = storeAB "b" := by
  obtain ⟨t2, heq, h1, h2, h3, h4, h5, h6, h7, h8, h9, h10, h11, h12, h13,
    h14, h15, h16, h17, h18, h19, h20, h21, h22, h23, h24, h25, h26, hupd,
    hframe⟩ := c5_partial_update_merge storeAB 11 "a" txnA updSample
      (by decide)
  exact ⟨t2, heq, h6 "COMPLETED" rfl, h7 rfl, hupd, hframe "b" (by decide)⟩

/-- C6: running the status check twice in a row while the gateway reports
the same status both times leaves the store after the second run identical
to the store after the first: the second run sees no status difference and
performs no write at all (so the record is unchanged, `updated` included). -/
theorem c6_status_check_idempotent (store : Store) (now1 now2 : Nat)
    (id : String) (t : Transaction) (r1 r2 : GatewayResponse)
    (h : getTransaction store id = some t) (hst : r2.status = r1.status) :
    (checkDepositStatus (checkDepositStatus store now1 id (.ok r1)).2 now2 id
        (.ok r2)).2 =
      (checkDepositStatus store now1 id (.ok r1)).2 := by
  have h2 : store id = some t := h
  by_cases hsame : r1.status = t.status
  · have hrun1 : checkDepositStatus store now1 id (.ok r1) =
        (.okGateway r1, store) := by
      simp [checkDepositStatus, getTransaction, h2, hsame]
    rw [hrun1]
    simp [checkDepositStatus, getTransaction, h2, hst, hsame]
  · have hrun1 : checkDepositStatus store now1 id (.ok r1) =
        (.okGateway r1,
          Store.set store id
            (applyUpdates t
              { status := some r1.status
                pawapayResponse := some (some r1.raw)
                providerTransactionId := some r1.providerTransactionId }
              now1)) := by
      simp [checkDepositStatus, getTransaction, h2, hsame, updateTransaction]
    rw [hrun1]
    simp [checkDepositStatus, getTransaction, Store.set, applyUpdates, hst]

/-- Fixture: a COMPLETED gateway status payload. -/
def gwR1 : GatewayResponse :=
  { status := "COMPLETED"
    country := some "RWA"
    providerTransactionId := some "prov-1"
    raw := "\x7b\"status\":\"COMPLETED\"\x7d" }

/-- Fixture: a second payload with the same status but different body. -/
def gwR2 : GatewayResponse :=
  { status := "COMPLETED"
    country := none
    providerTransactionId := some "prov-1"
    raw := "\x7b\"status\":\"COMPLETED\",\"seen\":2\x7d" }

/-- Witness for C6: two consecutive checks against the concrete store. -/
theorem c6_status_check_idempotent_witness :
    (checkDepositStatus (checkDepositStatus storeAB 11 "a" (.ok gwR1)).2 12
        "a" (.ok gwR2)).2 =
      (checkDepositStatus storeAB 11 "a" (.ok gwR1)).2 :=
  c6_status_check_idempotent storeAB 11 12 "a" txnA gwR1 gwR2 (by decide)
    (by decide)

/-- Fixture: a callback payload reporting status FAILED for id "a". -/
def cbFailed : CallbackData :=
  { depositId := some "a"
    payoutId := none
    status := "FAILED"
    providerTransactionId := none
    country := none
    raw := "\x7b\"depositId\":\"a\",\"status\":\"FAILED\"\x7d" }

/-- C7 counterexample: the webhook channel — which performs no gateway call,
so its update is not driven by a caught gateway communication error —
persists status FAILED into the stored record while leaving `errorMessage`
null, refuting the claimed invariant. -/
theorem c7_failed_null_error_cex :
    (handleCallback storeAB 13 cbFailed).2 "a" =
      some
        { txnA with
          status := "FAILED"
          pawapayResponse := some cbFailed.raw
          providerTransactionId := none
          country := ""
          updated := 13 } ∧
    ((handleCallback storeAB 13 cbFailed).2 "a").bind Transaction.errorMessage =
      none ∧
    (handleCallback storeAB 13 cbFailed).1 = .success := by decide

/-- Fixture: a gateway payload reporting status FAILED. -/
def gwFailedResp : GatewayResponse :=
  { status := "FAILED"
    country := none
    providerTransactionId := none
    raw := "\x7b\"status\":\"FAILED\"\x7d" }

/-- C7 amended: an initiation gateway failure writes FAILED together with
the caught failure detail as a non-null `errorMessage` in the same update
(deposit and payout); every other status-writing channel — the initiation
success merge (deposit and payout), both status-check merges, the webhook
callback merge and the return-URL success merge — copies the gateway- or
caller-reported status verbatim and never writes `errorMessage`, so any of
them can persist a reported FAILED status with `errorMessage` left
untouched (hence possibly null). -/
theorem c7_failed_error_message_policy (store : Store) (now1 now2 : Nat)
    (idD idP : String) (r : DepositRequest) (rp : PayoutRequest) (e : String)
    (resp : GatewayResponse) (cb : CallbackData) (x : String)
    (t : Transaction)
    (hr : depositRequestValid r = true) (hrp : payoutRequestValid rp = true)
    (hx : jsOrOpt cb.depositId cb.payoutId = some x) (hxe : x ≠ "")
    (ht : getTransaction store x = some t) :
    (∃ td,
      getTransaction (initiateDeposit store now1 now2 idD r (.error e)).2
          idD = some td ∧
      td.status = "FAILED" ∧ td.errorMessage = some e) ∧
    (∃ tp,
      getTransaction (initiatePayout store now1 now2 idP rp (.error e)).2
          idP = some tp ∧
      tp.status = "FAILED" ∧ tp.errorMessage = some e) ∧
    (∃ ts,
      getTransaction (initiateDeposit store now1 now2 idD r (.ok resp)).2
          idD = some ts ∧
      ts.status = resp.status ∧ ts.errorMessage = none) ∧
    (∃ tu,
      getTransaction (initiatePayout store now1 now2 idP rp (.ok resp)).2
          idP = some tu ∧
      tu.status = resp.status ∧ tu.errorMessage = none) ∧
    (∃ tc,
      getTransaction (checkDepositStatus store now1 x (.ok resp)).2 x =
        some tc ∧
      tc.status = resp.status ∧ tc.errorMessage = t.errorMessage) ∧
    (∃ tv,
      getTransaction (checkPayoutStatus store now1 x (.ok resp)).2 x =
        some tv ∧
      tv.status = resp.status ∧ tv.errorMessage = t.errorMessage) ∧
    (∃ tw,
      getTransaction (handleCallback store now1 cb).2 x = some tw ∧
      tw.status = cb.status ∧ tw.errorMessage = t.errorMessage) ∧
    (∃ tz,
      getTransaction
          (handlePaymentReturn store now1 (some x) (.ok resp)).2 x =
        some tz ∧
      tz.status = resp.status ∧ tz.errorMessage = t.errorMessage) := by
  have h2 : store x = some t := ht
  have hfailD : ∃ td,
      getTransaction (initiateDeposit store now1 now2 idD r (.error e)).2
          idD = some td ∧
      td.status = "FAILED" ∧ td.errorMessage = some e :=
    ⟨{ id := idD
       type := "DEPOSIT"
       status := "FAILED"
       amount := r.amount
       currency := r.currency
       country := ""
       phoneNumber := r.phoneNumber
       provider := r.provider
       description := jsOrNull r.description
       providerTransactionId := none
       pawapayResponse := none
       errorMessage := some e
       created := now1
       updated := now2 },
      by simp [initiateDeposit, hr, createTransaction, depositInsert,
        updateTransaction, applyUpdates, getTransaction, Store.set],
      rfl, rfl⟩
  have hfailP : ∃ tp,
      getTransaction (initiatePayout store now1 now2 idP rp (.error e)).2
          idP = some tp ∧
      tp.status = "FAILED" ∧ tp.errorMessage = some e :=
    ⟨{ id := idP
       type := "PAYOUT"
       status := "FAILED"
       amount := rp.amount
       currency := rp.currency
       country := ""
       phoneNumber := rp.phoneNumber
       provider := rp.provider
       description := jsOrNull rp.description
       providerTransactionId := none
       pawapayResponse := none
       errorMessage := some e
       created := now1
       updated := now2 },
      by simp [initiatePayout, hrp, createTransaction, payoutInsert,
        updateTransaction, applyUpdates, getTransaction, Store.set],
      rfl, rfl⟩
  have hokD : ∃ ts,
      getTransaction (initiateDeposit store now1 now2 idD r (.ok resp)).2
          idD = some ts ∧
      ts.status = resp.status ∧ ts.errorMessage = none :=
    ⟨{ id := idD
       type := "DEPOSIT"
       status := resp.status
       amount := r.amount
       currency := r.currency
       country := jsOrStr resp.country ""
       phoneNumber := r.phoneNumber
       provider := r.provider
       description := jsOrNull r.description
       providerTransactionId := none
       pawapayResponse := some resp.raw
       errorMessage := none
       created := now1
       updated := now2 },
      by simp [initiateDeposit, hr, createTransaction, depositInsert,
        updateTransaction, applyUpdates, getTransaction, Store.set],
      rfl, rfl⟩
  have hokP : ∃ tu,
      getTransaction (initiatePayout store now1 now2 idP rp (.ok resp)).2
          idP = some tu ∧
      tu.status = resp.status ∧ tu.errorMessage = none :=
    ⟨{ id := idP
       type := "PAYOUT"
       status := resp.status
       amount := rp.amount
       currency := rp.currency
       country := jsOrStr resp.country ""
       phoneNumber := rp.phoneNumber
       provider := rp.provider
       description := jsOrNull rp.description
       providerTransactionId := none
       pawapayResponse := some resp.raw
       errorMessage := none
       created := now1
       updated := now2 },
      by simp [initiatePayout, hrp, createTransaction, payoutInsert,
        updateTransaction, applyUpdates, getTransaction, Store.set],
      rfl, rfl⟩
  have hchkD : ∃ tc,
      getTransaction (checkDepositStatus store now1 x (.ok resp)).2 x =
        some tc ∧
      tc.status = resp.status ∧ tc.errorMessage = t.errorMessage := by
    by_cases hsame : resp.status = t.status
    · exact ⟨t, by simp [checkDepositStatus, ht, hsame], hsame.symm, rfl⟩
    · exact ⟨applyUpdates t
          { status := some resp.status
            pawapayResponse := some (some resp.raw)
            providerTransactionId := some resp.providerTransactionId }
          now1,
        by simp [checkDepositStatus, ht, hsame, updateTransaction, h2,
          getTransaction, Store.set],
        by simp [applyUpdates], by simp [applyUpdates]⟩
  have hchkP : ∃ tv,
      getTransaction (checkPayoutStatus store now1 x (.ok resp)).2 x =
        some tv ∧
      tv.status = resp.status ∧ tv.errorMessage = t.errorMessage := by
    by_cases hsame : resp.status = t.status
    · exact ⟨t, by simp [checkPayoutStatus, ht, hsame], hsame.symm, rfl⟩
    · exact ⟨applyUpdates t
          { status := some resp.status
            pawapayResponse := some (some resp.raw)
            providerTransactionId := some resp.providerTransactionId }
          now1,
        by simp [checkPayoutStatus, ht, hsame, updateTransaction, h2,
          getTransaction, Store.set],
        by simp [applyUpdates], by simp [applyUpdates]⟩
  have hweb : ∃ tw,
      getTransaction (handleCallback store now1 cb).2 x = some tw ∧
      tw.status = cb.status ∧ tw.errorMessage = t.errorMessage :=
    ⟨applyUpdates t
        { status := some cb.status
          pawapayResponse := some (some cb.raw)
          providerTransactionId := some cb.providerTransactionId
          country := some (jsOrStr cb.country "") } now1,
      by simp [handleCallback, hx, hxe, updateTransaction, h2,
        getTransaction, Store.set],
      by simp [applyUpdates], by simp [applyUpdates]⟩
  have hret : ∃ tz,
      getTransaction
          (handlePaymentReturn store now1 (some x) (.ok resp)).2 x =
        some tz ∧
      tz.status = resp.status ∧ tz.errorMessage = t.errorMessage := by
    refine ⟨applyUpdates t
        { status := some resp.status
          pawapayResponse := some (some resp.raw)
          providerTransactionId := some resp.providerTransactionId
          country := some (jsOrStr resp.country t.country) } now1, ?_,
      by simp [applyUpdates], by simp [applyUpdates]⟩
    by_cases hc : resp.status = "COMPLETED" <;>
      simp [handlePaymentReturn, getTransaction, ht, hxe, updateTransaction,
        h2, hc, Store.set]
  exact ⟨hfailD, hfailP, hokD, hokP, hchkD, hchkP, hweb, hret⟩

/-- Witness for the amended C7: concrete requests, error, FAILED gateway
payload and FAILED callback payload against the concrete store. -/
theorem c7_failed_error_message_policy_witness :
    (∃ td,
      getTransaction (initiateDeposit storeAB 3 4 "d1" reqD (.error "boom")).2
          "d1" = some td ∧
      td.status = "FAILED" ∧ td.errorMessage = some "boom") ∧
    (∃ tp,
      getTransaction (initiatePayout storeAB 3 4 "p1" reqP (.error "boom")).2
          "p1" = some tp ∧
      tp.status = "FAILED" ∧ tp.errorMessage = some "boom") ∧
    (∃ ts,
      getTransaction (initiateDeposit storeAB 3 4 "d1" reqD
          (.ok gwFailedResp)).2 "d1" = some ts ∧
      ts.status = gwFailedResp.status ∧ ts.errorMessage = none) ∧
    (∃ tu,
      getTransaction (initiatePayout storeAB 3 4 "p1" reqP
          (.ok gwFailedResp)).2 "p1" = some tu ∧
      tu.status = gwFailedResp.status ∧ tu.errorMessage = none) ∧
    (∃ tc,
      getTransaction (checkDepositStatus storeAB 3 "a" (.ok gwFailedResp)).2
          "a" = some tc ∧
      tc.status = gwFailedResp.status ∧ tc.errorMessage = txnA.errorMessage) ∧
    (∃ tv,
      getTransaction (checkPayoutStatus storeAB 3 "a" (.ok gwFailedResp)).2
          "a" = some tv ∧
      tv.status = gwFailedResp.status ∧ tv.errorMessage = txnA.errorMessage) ∧
    (∃ tw,
      getTransaction (handleCallback storeAB 3 cbFailed).2 "a" = some tw ∧
      tw.status = cbFailed.status ∧ tw.errorMessage = txnA.errorMessage) ∧
    (∃ tz,
      getTransaction
          (handlePaymentReturn storeAB 3 (some "a") (.ok gwFailedResp)).2
          "a" = some tz ∧
      tz.status = gwFailedResp.status ∧
      tz.errorMessage = txnA.errorMessage) :=
  c7_failed_error_message_policy storeAB 3 4 "d1" "p1" reqD reqP "boom"
    gwFailedResp cbFailed "a" txnA (by decide) (by decide) (by decide)
    (by decide) (by decide)

/-- A description passing the deposit rule is nonempty (length at least 4). -/
theorem descriptionValid_ne_empty (s : String)
    (h : descriptionValid s = true) : s ≠ "" := by
  intro hs
  subst hs
  exact absurd h (by decide)

/-- Fixture: a payout request whose description is the empty string — a
valid input under `payoutRequestSchema`, which puts no constraint on the
optional description. -/
def reqPEmptyDesc : PayoutRequest :=
  { phoneNumber := "0780000000"
    provider := "MTN_MOMO_RWA"
    amount := "100"
    currency := "RWF"
    description := some "" }

/-- C8 counterexample: creating from a valid payout input whose description
is the empty string stores `description = null` (the store normalises falsy
descriptions with `|| null`), so the fetched record does not match the
creation input on the description field. -/
theorem c8_create_then_fetch_cex :
    payoutRequestValid reqPEmptyDesc = true ∧
    getTransaction
        (createTransaction Store.emptyStore 0
          (payoutInsert "p9" reqPEmptyDesc)).2 "p9" =
      some
        { id := "p9"
          type := "PAYOUT"
          status := "PENDING"
          amount := "100"
          currency := "RWF"
          country := ""
          phoneNumber := "0780000000"
          provider := "MTN_MOMO_RWA"
          description := none
          providerTransactionId := none
          pawapayResponse := none
          errorMessage := none
          created := 0
          updated := 0 } ∧
    reqPEmptyDesc.description = some "" ∧
    (none : Option String) ≠ some "" := by decide

/-- C8 amended: fetching immediately after the create step — before any
gateway response is merged — yields a PENDING record whose amount,
currency, phoneNumber, provider and type match the creation input.  The
description matches the input exactly for deposits (whose validation forces
a nonempty description when present); for payouts it is the input
description with an empty value normalised to null. -/
theorem c8_create_then_fetch (store : Store) (now : Nat) (idD idP : String)
    (r : DepositRequest) (rp : PayoutRequest)
    (hr : depositRequestValid r = true) (hrp : payoutRequestValid rp = true) :
    getTransaction (createTransaction store now (depositInsert idD r)).2
        idD =
      some
        { id := idD
          type := "DEPOSIT"
          status := "PENDING"
          amount := r.amount
          currency := r.currency
          country := ""
          phoneNumber := r.phoneNumber
          provider := r.provider
          description := r.description
          providerTransactionId := none
          pawapayResponse := none
          errorMessage := none
          created := now
          updated := now } ∧
    getTransaction (createTransaction store now (payoutInsert idP rp)).2
        idP =
      some
        { id := idP
          type := "PAYOUT"
          status := "PENDING"
          amount := rp.amount
          currency := rp.currency
          country := ""
          phoneNumber := rp.phoneNumber
          provider := rp.provider
          description := jsOrNull rp.description
          providerTransactionId := none
          pawapayResponse := none
          errorMessage := none
          created := now
          updated := now } := by
  have hd : jsOrNull r.description = r.description := by
    cases hdesc : r.description with
    | none => rfl
    | some s =>
        have hv : descriptionValid s = true := by
          simp [depositRequestValid, hdesc, Bool.and_eq_true] at hr
          exact hr.2
        have hne : s ≠ "" := descriptionValid_ne_empty s hv
        simp [jsOrNull, hne]
  constructor
  · simp [createTransaction, depositInsert, getTransaction, Store.set, hd]
  · simp [createTransaction, payoutInsert, getTransaction, Store.set]

/-- Witness for the amended C8: concrete deposit and payout requests. -/
theorem c8_create_then_fetch_witness :
    getTransaction (createTransaction storeAB 6 (depositInsert "d2" reqD)).2
        "d2" =
      some
        { id := "d2"
          type := "DEPOSIT"
          status := "PENDING"
          amount := reqD.amount
          currency := reqD.currency
          country := ""
          phoneNumber := reqD.phoneNumber
          provider := reqD.provider
          description := reqD.description
          providerTransactionId := none
          pawapayResponse := none
          errorMessage := none
          created := 6
          updated := 6 } ∧
    getTransaction (createTransaction storeAB 6 (payoutInsert "p2" reqP)).2
        "p2" =
      some
        { id := "p2"
          type := "PAYOUT"
          status := "PENDING"
          amount := reqP.amount
          currency := reqP.currency
          country := ""
          phoneNumber := reqP.phoneNumber
          provider := reqP.provider
          description := jsOrNull reqP.description
          providerTransactionId := none
          pawapayResponse := none
          errorMessage := none
          created := 6
          updated := 6 } :=
  c8_create_then_fetch storeAB 6 "d2" "p2" reqD reqP (by decide) (by decide)

/-- Fixture: an insert payload colliding with stored id "a" but carrying
different fields. -/
def insCollide : InsertTransaction :=
  { id := "a"
    type := "DEPOSIT"
    status := "PENDING"
    amount := "2222"
    currency := "KES"
    country := ""
    phoneNumber := "+254700000001"
    provider := "MPESA"
    description := none
    providerTransactionId := none
    pawapayResponse := none
    errorMessage := none }

/-- C9 counterexample: creating with an id already present neither fails
nor is ignored — the previously stored record is silently replaced, its
amount changing from "1000" to "2222". -/
theorem c9_create_collision_cex :
    (getTransaction storeAB "a").map Transaction.amount = some "1000" ∧
    (getTransaction (createTransaction storeAB 2 insCollide).2 "a").map
        Transaction.amount = some "2222" := by decide

/-- C9 amended: the store is keyed, so each id maps to at most one record;
but creating with an id that already exists silently overwrites the
previously stored record with the new one (last write wins), leaving every
other id unchanged. -/
theorem c9_create_overwrites (store : Store) (now : Nat)
    (ins : InsertTransaction) :
    getTransaction (createTransaction store now ins).2 ins.id =
      some (createTransaction store now ins).1 ∧
    (∀ y, y ≠ ins.id →
      getTransaction (createTransaction store now ins).2 y =
        getTransaction store y) := by
  constructor
  · simp [createTransaction, getTransaction, Store.set]
  · intro y hy
    simp [createTransaction, getTransaction, Store.set, hy]

/-- Witness for the amended C9: the other stored id is untouched by a
colliding create. -/
theorem c9_create_overwrites_witness :
    getTransaction (createTransaction storeAB 2 insCollide).2 "b" =
      getTransaction storeAB "b" :=
  (c9_create_overwrites storeAB 2 insCollide).2 "b" (by decide)
